import Mathlib

/-!
Verification of the GigaMovie Telegram bot (bot.py, models.py) against its
natural-language specification.  The Python source is shallowly embedded:
the GigaChat API client becomes pure functions over an explicit token state
and an explicit model of the HTTP endpoint's response, and the SQLAlchemy
persistence layer becomes pure functions over an explicit database state
(lists of rows in insertion order, with autoincrement counters).
-/

namespace GigaMovie

/-! ## Token manager (bot.py, class GigaChatAPI)

`GigaChatAPI` holds `self.access_token : Option String` (initially `None`)
and `self.token_expiry : datetime` (initially `utcnow()`).  Instants are
modelled as rationals (seconds since epoch); the provider reports
`expires_at` in milliseconds, which the code divides by 1000. -/

/-- The mutable fields of a `GigaChatAPI` instance. -/
structure TokenState where
  access_token : Option String
  token_expiry : ℚ
  deriving Repr, DecidableEq

/-- Body of a token-endpoint HTTP response, as far as the code inspects it:
either the body is not valid JSON, or it is JSON in which the keys
`access_token` and `expires_at` may each be present or absent. -/
inductive TokenBody where
  | malformedJson : TokenBody
  | json (access_token : Option String) (expires_at : Option ℚ) : TokenBody
  deriving Repr, DecidableEq

/-- Outcome of one POST to the token endpoint: a transport-level error
(no HTTP response at all) or an HTTP response with a status code and body. -/
inductive TokenOutcome where
  | transportError : TokenOutcome
  | response (status : ℕ) (body : TokenBody) : TokenOutcome
  deriving Repr, DecidableEq

/-- The exception that escapes `request_access_token`.
`requestException` covers transport errors, `raise_for_status` (HTTP
4xx/5xx) and JSON-decode failures (`requests.exceptions.JSONDecodeError`
is a `RequestException`): these are logged and re-raised by the
`except` clause.  `keyError` covers a missing `access_token` or
`expires_at` key, which is not a `RequestException` and propagates
uncaught.  The spec's name for any of these is `TokenAcquisitionError`. -/
inductive TokenErr where
  | requestException : TokenErr
  | keyError : TokenErr
  deriving Repr, DecidableEq

/-- Python truthiness of `self.access_token`: `not self.access_token` is
true when the field is `None` or the empty string. -/
def tokenFalsy : Option String → Bool
  | none => true
  | some s => s == ""

/-- `raise_for_status` raises `HTTPError` exactly for status codes in
[400, 600). -/
def raiseForStatus (status : ℕ) : Bool :=
  400 ≤ status && status < 600

/-- `GigaChatAPI.request_access_token`, given the endpoint's outcome for
this one call.  Returns the state of the instance after the call together
with the exception, if one propagates.  Mutations happen in source order:
`self.access_token` is assigned before `self.token_expiry`, so a JSON body
carrying `access_token` but not `expires_at` updates the token and then
raises `KeyError`, leaving the old expiry in place. -/
def request_access_token (st : TokenState) (out : TokenOutcome) :
    TokenState × Option TokenErr :=
  match out with
  | .transportError => (st, some .requestException)
  | .response status body =>
    if raiseForStatus status then (st, some .requestException)
    else
      match body with
      | .malformedJson => (st, some .requestException)
      | .json tok? exp? =>
        match tok? with
        | none => (st, some .keyError)
        | some tok =>
          match exp? with
          | none => ({ st with access_token := some tok }, some .keyError)
          | some e =>
            ({ access_token := some tok, token_expiry := e / 1000 }, none)

/-- `GigaChatAPI.get_access_token` at instant `now`.  Refreshes when
`not self.access_token or datetime.utcnow() >= self.token_expiry`.
Returns the token the function would return, the new state, the
propagating exception (if any), and whether the endpoint was called. -/
def get_access_token (now : ℚ) (st : TokenState) (out : TokenOutcome) :
    Option String × TokenState × Option TokenErr × Bool :=
  if tokenFalsy st.access_token || decide (st.token_expiry ≤ now) then
    let (st', err) := request_access_token st out
    (st'.access_token, st', err, true)
  else
    (st.access_token, st, none, false)

/-- Fold `get_access_token` over a list of calls, each made at its own
instant with its own prepared endpoint outcome; counts endpoint calls. -/
def runTokenCalls (st : TokenState) : List (ℚ × TokenOutcome) → TokenState × ℕ
  | [] => (st, 0)
  | (now, out) :: rest =>
    let (_, st', _, called) := get_access_token now st out
    let (stEnd, n) := runTokenCalls st' rest
    (stEnd, (if called then 1 else 0) + n)

/-! ## Completion client (bot.py, GigaChatAPI.generate_recipe) -/

/-- One message object inside a completion choice; the code reads
`["message"]["content"]`, either of which may be absent. -/
structure ChoiceMsg where
  content : Option String
  deriving Repr, DecidableEq

structure Choice where
  message : Option ChoiceMsg
  deriving Repr, DecidableEq

/-- Body of a completion-endpoint response as far as the code inspects it. -/
inductive CompletionBody where
  | malformedJson : CompletionBody
  | json (choices : Option (List Choice)) : CompletionBody
  deriving Repr, DecidableEq

inductive CompletionOutcome where
  | transportError : CompletionOutcome
  | response (status : ℕ) (body : CompletionBody) : CompletionOutcome
  deriving Repr, DecidableEq

/-- An exception escaping `generate_recipe`: either the token refresh
failed (`get_access_token` is called while building the headers, outside
the `try`), or the response JSON lacks `choices[0].message.content`
(`KeyError`/`IndexError` is not a `RequestException`, so it escapes the
`except` clause; the spec calls it `MalformedResponseError`). -/
inductive GenErr where
  | tokenAcquisition (e : TokenErr) : GenErr
  | malformedResponse : GenErr
  deriving Repr, DecidableEq

/-- The fixed fallback string returned on a caught request failure. -/
def fallbackMessage : String :=
  "Извините, я не смог обработать ваш запрос в данный момент."

/-- Python `str.strip()` on a list of characters: drop whitespace from
both ends. -/
def stripChars (l : List Char) : List Char :=
  ((l.dropWhile Char.isWhitespace).reverse.dropWhile
    Char.isWhitespace).reverse

/-- Python `str.strip()`: the trimmed text. -/
def pyStrip (s : String) : String := (stripChars s.data).asString

/-- `GigaChatAPI.generate_recipe`, with the token refresh and the
completion call each given their endpoint outcome.  Returns the result
(`Except` models raising) and the token state after the call. -/
def generate_recipe (now : ℚ) (st : TokenState) (tokOut : TokenOutcome)
    (out : CompletionOutcome) : Except GenErr String × TokenState :=
  let (_, st', tokErr, _) := get_access_token now st tokOut
  match tokErr with
  | some e => (.error (.tokenAcquisition e), st')
  | none =>
    match out with
    | .transportError => (.ok fallbackMessage, st')
    | .response status body =>
      if raiseForStatus status then (.ok fallbackMessage, st')
      else
        match body with
        | .malformedJson => (.ok fallbackMessage, st')
        | .json choices? =>
          match choices? with
          | none => (.error .malformedResponse, st')
          | some choices =>
            match choices with
            | [] => (.error .malformedResponse, st')
            | c :: _ =>
              match c.message with
              | none => (.error .malformedResponse, st')
              | some m =>
                match m.content with
                | none => (.error .malformedResponse, st')
                | some content => (.ok (pyStrip content), st')

/-! ## Preference store (models.py + bot.py)

`users(id PK autoincrement, telegram_id UNIQUE, username, ...)` and
`genres(id PK autoincrement, genre_name, user_id FK, ...)`.  Each table is
a list of rows in insertion order (the order `.all()` returns for this
SQLite setup), with an autoincrement counter for the next primary key.
Server-assigned timestamps are not inspected by any code path the claims
concern, so they are omitted from the row model. -/

structure UserRow where
  id : ℕ
  telegram_id : ℤ
  username : Option String
  deriving Repr, DecidableEq

structure GenreRow where
  id : ℕ
  user_id : ℕ
  genre_name : String
  deriving Repr, DecidableEq

structure DB where
  users : List UserRow
  genres : List GenreRow
  nextUserId : ℕ
  nextGenreId : ℕ
  deriving Repr, DecidableEq

def DB.empty : DB := ⟨[], [], 0, 0⟩

/-- Fault injection for the persistence operations inside
`get_or_create_user`: which step, if any, raises. -/
inductive StoreFault where
  | noFault : StoreFault
  | lookupFail : StoreFault
  | insertFail : StoreFault
  | commitFail : StoreFault
  deriving Repr, DecidableEq

/-- `bot.get_or_create_user`.  The local `user` starts as `None`; the
lookup rebinds it to the first row matching `telegram_id`; if absent, it
is rebound to a freshly constructed `User` object, which is then added
and committed.  Any exception is caught and logged, and the current value
of `user` is returned: a lookup failure leaves it `None`, but an
`add`/`commit` failure happens after the rebinding, so the un-persisted
object is returned while the table is unchanged. -/
def get_or_create_user (fault : StoreFault) (db : DB) (tgid : ℤ)
    (username : Option String) : Option UserRow × DB :=
  match fault with
  | .lookupFail => (none, db)
  | _ =>
    match db.users.find? (fun u => u.telegram_id == tgid) with
    | some u => (some u, db)
    | none =>
      let u : UserRow := ⟨db.nextUserId, tgid, username⟩
      match fault with
      | .insertFail | .commitFail => (some u, db)
      | _ =>
        (some u, { db with users := db.users ++ [u],
                           nextUserId := db.nextUserId + 1 })

/-! ## Command router / handlers (bot.py) -/

/-- The fixed inline-keyboard vocabulary. -/
def AVAILABLE_GENRES : List String :=
  ["Драма", "Комедия", "Боевик", "Триллер", "Ужасы",
   "Фантастика", "Фэнтези", "Романтика", "Документальное кино",
   "Мультфильмы/Анимация"]

/-- Replies a handler can send, with the data each reply carries.
`chooseGenres` carries the inline keyboard as (label, callback_data)
pairs; `genreList` carries the listed labels in query order. -/
inductive Reply where
  | userError : Reply
  | chooseGenres (keyboard : List (String × String)) : Reply
  | genreAdded (g : String) : Reply
  | genreAlready (g : String) : Reply
  | genreAddError : Reply
  | genreList (labels : List String) : Reply
  | noGenres : Reply
  | indexError : Reply
  deriving Repr, DecidableEq

/-- Python `data.split("_", 1)[1]` on a list of characters: the suffix
after the first underscore, or `none` when there is no underscore (the
subscript raises `IndexError` in that case). -/
def afterFirstUnderscore : List Char → Option (List Char)
  | [] => none
  | c :: cs => if c = '_' then some cs else afterFirstUnderscore cs

/-- `data.split("_", 1)[1]` on a string. -/
def chosenGenreOf (data : String) : Option String :=
  (afterFirstUnderscore data.data).map List.asString

/-- One inbound event to a handler: the pressing/sending user and, for
callback events, the callback payload. -/
structure CBEvent where
  tgid : ℤ
  username : Option String
  data : String
  deriving Repr, DecidableEq

/-- `bot.set_genres_command`: ensure the user row exists, delete all of
that user's genre rows, then present the inline keyboard (one button per
allowed genre, payload `"genre_" ++ label`). -/
def set_genres_command (db : DB) (tgid : ℤ) (username : Option String) :
    DB × Reply :=
  match get_or_create_user .noFault db tgid username with
  | (none, db1) => (db1, .userError)
  | (some user, db1) =>
    let db2 := { db1 with
      genres := db1.genres.filter (fun g => !(g.user_id == user.id)) }
    (db2, .chooseGenres (AVAILABLE_GENRES.map (fun g => (g, "genre_" ++ g))))

/-- `bot.genre_callback`: parse the label after the first underscore of
the payload, ensure the user row exists, then insert the (user, label)
genre row unless one already exists. -/
def genre_callback (db : DB) (ev : CBEvent) : DB × Reply :=
  match chosenGenreOf ev.data with
  | none => (db, .indexError)
  | some chosen =>
    match get_or_create_user .noFault db ev.tgid ev.username with
    | (none, db1) => (db1, .userError)
    | (some user, db1) =>
      match db1.genres.find?
          (fun g => g.user_id == user.id && g.genre_name == chosen) with
      | some _ => (db1, .genreAlready chosen)
      | none =>
        ({ db1 with
            genres := db1.genres ++ [⟨db1.nextGenreId, user.id, chosen⟩],
            nextGenreId := db1.nextGenreId + 1 },
         .genreAdded chosen)

/-- `bot.get_genres`: list the user's genre rows in query (insertion)
order, or the "none selected" message when there are none. -/
def get_genres (db : DB) (tgid : ℤ) (username : Option String) :
    DB × Reply :=
  match get_or_create_user .noFault db tgid username with
  | (none, db1) => (db1, .userError)
  | (some user, db1) =>
    let user_genres := db1.genres.filter (fun g => g.user_id == user.id)
    if user_genres.isEmpty then (db1, .noGenres)
    else (db1, .genreList (user_genres.map (fun g => g.genre_name)))

/-- A sequence of genre-selection callback events, applied in order. -/
def runCallbacks (db : DB) : List CBEvent → DB
  | [] => db
  | ev :: rest => runCallbacks (genre_callback db ev).1 rest

/-- The genre labels stored for user id `uid`, in insertion order. -/
def userLabels (db : DB) (uid : ℕ) : List String :=
  (db.genres.filter (fun g => g.user_id == uid)).map (fun g => g.genre_name)

/-- Invariant: at most one `User` row per `telegram_id`. -/
def uniqueTelegramIds (db : DB) : Prop :=
  db.users.Pairwise (fun a b => a.telegram_id ≠ b.telegram_id)

/-- Invariant: at most one `Genre` row per (user, label) pair. -/
def genreUnique (db : DB) : Prop :=
  db.genres.Pairwise
    (fun a b => ¬(a.user_id = b.user_id ∧ a.genre_name = b.genre_name))

/-! ## Helper lemmas -/

/-- Payloads built by the keyboard parse back to their label: the label
is everything after the first underscore, and `"genre"` contains none. -/
lemma chosenGenreOf_genre (X : String) :
    chosenGenreOf ("genre_" ++ X) = some X := rfl

/-- `get_or_create_user` when the lookup finds a row. -/
lemma goc_found (db : DB) (t : ℤ) (un : Option String) (u : UserRow)
    (h : db.users.find? (fun x => x.telegram_id == t) = some u) :
    get_or_create_user .noFault db t un = (some u, db) := by
  simp [get_or_create_user, h]

/-- `get_or_create_user` when the lookup finds nothing. -/
lemma goc_new (db : DB) (t : ℤ) (un : Option String)
    (h : db.users.find? (fun x => x.telegram_id == t) = none) :
    get_or_create_user .noFault db t un =
      (some ⟨db.nextUserId, t, un⟩,
       { db with users := db.users ++ [⟨db.nextUserId, t, un⟩],
                 nextUserId := db.nextUserId + 1 }) := by
  simp [get_or_create_user, h]

/-- After a fault-free `get_or_create_user`, the returned row is the first
lookup hit in the resulting table, and the genres table is untouched. -/
lemma goc_result (db : DB) (t : ℤ) (un : Option String) (u : UserRow)
    (db' : DB) (h : get_or_create_user .noFault db t un = (some u, db')) :
    db'.users.find? (fun x => x.telegram_id == t) = some u ∧
    db'.genres = db.genres ∧ db'.nextGenreId = db.nextGenreId := by
  cases hf : db.users.find? (fun x => x.telegram_id == t) with
  | some v =>
    rw [goc_found db t un v hf] at h
    simp only [Prod.mk.injEq, Option.some.injEq] at h
    obtain ⟨rfl, rfl⟩ := h
    exact ⟨hf, rfl, rfl⟩
  | none =>
    rw [goc_new db t un hf] at h
    simp only [Prod.mk.injEq, Option.some.injEq] at h
    obtain ⟨rfl, rfl⟩ := h
    refine ⟨?_, rfl, rfl⟩
    simp [List.find?_append, hf]

/-- Fault-free `get_or_create_user` never returns `none`. -/
lemma goc_isSome (db : DB) (t : ℤ) (un : Option String) :
    ∃ u db', get_or_create_user .noFault db t un = (some u, db') := by
  cases hf : db.users.find? (fun x => x.telegram_id == t) with
  | some v => exact ⟨v, db, goc_found db t un v hf⟩
  | none => exact ⟨_, _, goc_new db t un hf⟩

/-- Calling `get_or_create_user` again on its own result is a no-op
returning the same row, whatever username the second update carries. -/
lemma goc_idem (db db' : DB) (t : ℤ) (un un' : Option String) (u : UserRow)
    (h : get_or_create_user .noFault db t un = (some u, db')) :
    get_or_create_user .noFault db' t un' = (some u, db') :=
  goc_found db' t un' u (goc_result db t un u db' h).1

/-- Fault-free `get_or_create_user` preserves uniqueness of
`telegram_id`s. -/
lemma goc_uniqueTg (db db' : DB) (t : ℤ) (un : Option String) (u : UserRow)
    (h : get_or_create_user .noFault db t un = (some u, db'))
    (hu : uniqueTelegramIds db) : uniqueTelegramIds db' := by
  cases hf : db.users.find? (fun x => x.telegram_id == t) with
  | some v =>
    rw [goc_found db t un v hf] at h
    simp only [Prod.mk.injEq, Option.some.injEq] at h
    obtain ⟨rfl, rfl⟩ := h
    exact hu
  | none =>
    rw [goc_new db t un hf] at h
    simp only [Prod.mk.injEq, Option.some.injEq] at h
    obtain ⟨rfl, rfl⟩ := h
    unfold uniqueTelegramIds at hu ⊢
    simp only []
    rw [List.pairwise_append]
    refine ⟨hu, List.pairwise_singleton _ _, ?_⟩
    intro a ha b hb
    simp only [List.mem_singleton] at hb
    subst hb
    have hne := List.find?_eq_none.mp hf a ha
    simpa using hne

/-- `genre_callback` when the (user, label) pair is already stored. -/
lemma genre_callback_already' (db : DB) (ev : CBEvent) (chosen : String)
    (hc : chosenGenreOf ev.data = some chosen) (u : UserRow) (db1 : DB)
    (g : GenreRow)
    (h : get_or_create_user .noFault db ev.tgid ev.username = (some u, db1))
    (hg : db1.genres.find?
      (fun g => g.user_id == u.id && g.genre_name == chosen) = some g) :
    genre_callback db ev = (db1, .genreAlready chosen) := by
  simp [genre_callback, hc, h, hg]

/-- `genre_callback` when the (user, label) pair is absent. -/
lemma genre_callback_new' (db : DB) (ev : CBEvent) (chosen : String)
    (hc : chosenGenreOf ev.data = some chosen) (u : UserRow) (db1 : DB)
    (h : get_or_create_user .noFault db ev.tgid ev.username = (some u, db1))
    (hg : db1.genres.find?
      (fun g => g.user_id == u.id && g.genre_name == chosen) = none) :
    genre_callback db ev =
      ({ db1 with genres := db1.genres ++ [⟨db1.nextGenreId, u.id, chosen⟩],
                  nextGenreId := db1.nextGenreId + 1 }, .genreAdded chosen) := by
  simp [genre_callback, hc, h, hg]

/-- Specialisation to payloads of the form `"genre_" ++ X`. -/
lemma genre_callback_already (db db1 : DB) (t : ℤ) (un : Option String)
    (X : String) (u : UserRow) (g : GenreRow)
    (h : get_or_create_user .noFault db t un = (some u, db1))
    (hg : db1.genres.find?
      (fun g => g.user_id == u.id && g.genre_name == X) = some g) :
    genre_callback db ⟨t, un, "genre_" ++ X⟩ = (db1, .genreAlready X) :=
  genre_callback_already' db ⟨t, un, "genre_" ++ X⟩ X
    (chosenGenreOf_genre X) u db1 g h hg

/-- Specialisation to payloads of the form `"genre_" ++ X`. -/
lemma genre_callback_new (db db1 : DB) (t : ℤ) (un : Option String)
    (X : String) (u : UserRow)
    (h : get_or_create_user .noFault db t un = (some u, db1))
    (hg : db1.genres.find?
      (fun g => g.user_id == u.id && g.genre_name == X) = none) :
    genre_callback db ⟨t, un, "genre_" ++ X⟩ =
      ({ db1 with genres := db1.genres ++ [⟨db1.nextGenreId, u.id, X⟩],
                  nextGenreId := db1.nextGenreId + 1 }, .genreAdded X) :=
  genre_callback_new' db ⟨t, un, "genre_" ++ X⟩ X
    (chosenGenreOf_genre X) u db1 h hg

/-- `genre_callback` when the payload has no underscore (unreachable
behind the `^genre_` handler pattern): the subscript raises. -/
lemma genre_callback_noUnderscore (db : DB) (ev : CBEvent)
    (hc : chosenGenreOf ev.data = none) :
    genre_callback db ev = (db, .indexError) := by
  simp [genre_callback, hc]

/-- One `genre_callback` step preserves the per-(user, label) uniqueness
invariant: the existence check guards every insert. -/
lemma genre_callback_genreUnique (db : DB) (ev : CBEvent)
    (h : genreUnique db) : genreUnique (genre_callback db ev).1 := by
  cases hc : chosenGenreOf ev.data with
  | none => rw [genre_callback_noUnderscore db ev hc]; exact h
  | some chosen =>
    obtain ⟨u, db1, hgoc⟩ := goc_isSome db ev.tgid ev.username
    obtain ⟨hfind, hgen, _⟩ := goc_result _ _ _ _ _ hgoc
    cases hg : db1.genres.find?
        (fun g => g.user_id == u.id && g.genre_name == chosen) with
    | some g =>
      rw [genre_callback_already' db ev chosen hc u db1 g hgoc hg]
      unfold genreUnique at h ⊢
      rw [hgen]
      exact h
    | none =>
      rw [genre_callback_new' db ev chosen hc u db1 hgoc hg]
      unfold genreUnique at h ⊢
      simp only []
      rw [List.pairwise_append]
      refine ⟨hgen ▸ h, List.pairwise_singleton _ _, ?_⟩
      intro a ha b hb
      simp only [List.mem_singleton] at hb
      subst hb
      have hne := List.find?_eq_none.mp hg a ha
      simpa using hne

/-- `runCallbacks` preserves the per-(user, label) uniqueness invariant. -/
lemma runCallbacks_genreUnique (evs : List CBEvent) :
    ∀ db, genreUnique db → genreUnique (runCallbacks db evs) := by
  induction evs with
  | nil => intro db h; exact h
  | cons e rest ih =>
    intro db h
    exact ih _ (genre_callback_genreUnique db e h)

/-- Every `genre_callback` step either leaves the genres table unchanged
or appends exactly one row at the end (so list order is insertion order). -/
lemma genre_callback_appendOnly (db : DB) (ev : CBEvent) :
    (genre_callback db ev).1.genres = db.genres ∨
    ∃ r, (genre_callback db ev).1.genres = db.genres ++ [r] := by
  cases hc : chosenGenreOf ev.data with
  | none => rw [genre_callback_noUnderscore db ev hc]
            exact .inl rfl
  | some chosen =>
    obtain ⟨u, db1, hgoc⟩ := goc_isSome db ev.tgid ev.username
    obtain ⟨hfind, hgen, _⟩ := goc_result _ _ _ _ _ hgoc
    cases hg : db1.genres.find?
        (fun g => g.user_id == u.id && g.genre_name == chosen) with
    | some g =>
      rw [genre_callback_already' db ev chosen hc u db1 g hgoc hg]
      exact .inl hgen
    | none =>
      rw [genre_callback_new' db ev chosen hc u db1 hgoc hg]
      exact .inr ⟨⟨db1.nextGenreId, u.id, chosen⟩, by rw [← hgen]⟩

/-- `set_genres_command` in terms of the resolved user. -/
lemma set_genres_eq (db db1 : DB) (t : ℤ) (un : Option String) (u : UserRow)
    (h : get_or_create_user .noFault db t un = (some u, db1)) :
    set_genres_command db t un =
      ({ db1 with
          genres := db1.genres.filter (fun g => !(g.user_id == u.id)) },
       .chooseGenres (AVAILABLE_GENRES.map (fun g => (g, "genre_" ++ g)))) := by
  simp [set_genres_command, h]

/-- Deleting a user's rows leaves nothing of that user. -/
lemma filter_uid_of_filter_not (l : List GenreRow) (uid : ℕ) :
    (l.filter (fun g => !(g.user_id == uid))).filter
      (fun g => g.user_id == uid) = [] := by
  induction l with
  | nil => rfl
  | cons a l ih =>
    by_cases h : a.user_id = uid <;> simp [List.filter_cons, h, ih]

/-- After deleting a user's rows, no (user, label) lookup can hit. -/
lemma find?_of_filter_not (l : List GenreRow) (uid : ℕ) (X : String) :
    (l.filter (fun g => !(g.user_id == uid))).find?
      (fun g => g.user_id == uid && g.genre_name == X) = none := by
  rw [List.find?_eq_none]
  intro x hx
  have hmem := (List.mem_filter.mp hx).2
  simp only [Bool.not_eq_true', beq_eq_false_iff_ne, ne_eq] at hmem
  simp [hmem]

/-! ## Claim theorems -/

/-- C3: `get_or_create_user` is idempotent: a second call with the same
external chat identifier (whatever username it carries) returns the same
`User` row as the first call and inserts no second row (the database is
unchanged); and the one-User-row-per-`telegram_id` invariant is preserved,
so it holds at every reachable state. -/
theorem getOrCreateUser_idempotent (db db1 : DB) (t : ℤ)
    (un un' : Option String) (u : UserRow)
    (h : get_or_create_user .noFault db t un = (some u, db1)) :
    get_or_create_user .noFault db1 t un' = (some u, db1) ∧
    (uniqueTelegramIds db → uniqueTelegramIds db1) :=
  ⟨goc_idem db db1 t un un' u h, goc_uniqueTg db db1 t un u h⟩

/-- Witness for C3 at a concrete input. -/
theorem getOrCreateUser_idempotent_witness :
    get_or_create_user .noFault
        (⟨[⟨0, 42, some "ann"⟩], [], 1, 0⟩ : DB) 42 none =
      (some ⟨0, 42, some "ann"⟩, ⟨[⟨0, 42, some "ann"⟩], [], 1, 0⟩) ∧
    uniqueTelegramIds ⟨[⟨0, 42, some "ann"⟩], [], 1, 0⟩ :=
  ⟨(getOrCreateUser_idempotent DB.empty ⟨[⟨0, 42, some "ann"⟩], [], 1, 0⟩
      42 (some "ann") none ⟨0, 42, some "ann"⟩ rfl).1,
   (getOrCreateUser_idempotent DB.empty ⟨[⟨0, 42, some "ann"⟩], [], 1, 0⟩
      42 (some "ann") none ⟨0, 42, some "ann"⟩ rfl).2 List.Pairwise.nil⟩

/-- C6 counterexample: when the commit step fails for a fresh identifier,
`get_or_create_user` does NOT surface `None`: the caught exception leaves
the rebound local `user` holding the freshly constructed object, which is
returned even though no row was persisted (the users table is unchanged). -/
theorem getOrCreateUser_commitFail_counterexample :
    (get_or_create_user .commitFail DB.empty 42 none).1 =
      some ⟨0, 42, none⟩ ∧
    (get_or_create_user .commitFail DB.empty 42 none).2.users = [] ∧
    (get_or_create_user .commitFail DB.empty 42 none).1.isSome = true :=
  ⟨rfl, rfl, rfl⟩

/-- C6 (amended): a lookup failure is caught and surfaces as `None` with
the database unchanged; but an insert or commit failure for a previously
unseen identifier is caught and the freshly constructed, never-persisted
`User` object is returned while the users table is unchanged. -/
theorem getOrCreateUser_failure_behavior (db : DB) (t : ℤ)
    (un : Option String) :
    get_or_create_user .lookupFail db t un = (none, db) ∧
    (db.users.find? (fun x => x.telegram_id == t) = none →
      get_or_create_user .insertFail db t un =
        (some ⟨db.nextUserId, t, un⟩, db) ∧
      get_or_create_user .commitFail db t un =
        (some ⟨db.nextUserId, t, un⟩, db)) := by
  refine ⟨rfl, fun hf => ⟨?_, ?_⟩⟩ <;> simp [get_or_create_user, hf]

/-- Witness for C6's amended theorem at a concrete input. -/
theorem getOrCreateUser_failure_behavior_witness :
    get_or_create_user .lookupFail DB.empty 7 none = (none, DB.empty) ∧
    get_or_create_user .insertFail DB.empty 7 none =
      (some ⟨DB.empty.nextUserId, 7, none⟩, DB.empty) ∧
    get_or_create_user .commitFail DB.empty 7 none =
      (some ⟨DB.empty.nextUserId, 7, none⟩, DB.empty) :=
  ⟨(getOrCreateUser_failure_behavior DB.empty 7 none).1,
   ((getOrCreateUser_failure_behavior DB.empty 7 none).2 rfl).1,
   ((getOrCreateUser_failure_behavior DB.empty 7 none).2 rfl).2⟩

/-- C1: the genre-selection callback keeps at most one `Genre` row per
(user, label) pair: when a row for the resolved user and the parsed label
exists, the handler replies "already added" and inserts nothing; when it
is absent, exactly one row is appended and the handler replies "added";
and the at-most-one-row invariant is preserved by any sequence of
callback events. -/
theorem genreCallback_uniquePerUserLabel (db db1 : DB) (t : ℤ)
    (un : Option String) (X : String) (u : UserRow) (evs : List CBEvent)
    (h : get_or_create_user .noFault db t un = (some u, db1)) :
    ((∃ g ∈ db1.genres, g.user_id = u.id ∧ g.genre_name = X) →
      genre_callback db ⟨t, un, "genre_" ++ X⟩ = (db1, .genreAlready X)) ∧
    (¬(∃ g ∈ db1.genres, g.user_id = u.id ∧ g.genre_name = X) →
      genre_callback db ⟨t, un, "genre_" ++ X⟩ =
        ({ db1 with genres := db1.genres ++ [⟨db1.nextGenreId, u.id, X⟩],
                    nextGenreId := db1.nextGenreId + 1 }, .genreAdded X)) ∧
    (genreUnique db → genreUnique (runCallbacks db evs)) := by
  refine ⟨?_, ?_, fun hu => runCallbacks_genreUnique evs db hu⟩
  · rintro ⟨g, hmem, h1, h2⟩
    have hs : (db1.genres.find?
        (fun g => g.user_id == u.id && g.genre_name == X)).isSome := by
      rw [List.find?_isSome]
      exact ⟨g, hmem, by simp [h1, h2]⟩
    obtain ⟨g', hg'⟩ := Option.isSome_iff_exists.mp hs
    exact genre_callback_already db db1 t un X u g' h hg'
  · intro hne
    have hg : db1.genres.find?
        (fun g => g.user_id == u.id && g.genre_name == X) = none := by
      rw [List.find?_eq_none]
      intro x hx hpx
      simp only [Bool.and_eq_true, beq_iff_eq] at hpx
      exact hne ⟨x, hx, hpx.1, hpx.2⟩
    exact genre_callback_new db db1 t un X u h hg

/-- Witness for C1 at a concrete input: user 5 already has "Драма", so a
second press replies "already added" and inserts nothing, and the
invariant survives a further callback. -/
theorem genreCallback_uniquePerUserLabel_witness :
    genre_callback (⟨[⟨0, 5, none⟩], [⟨0, 0, "Драма"⟩], 1, 1⟩ : DB)
        ⟨5, none, "genre_" ++ "Драма"⟩ =
      (⟨[⟨0, 5, none⟩], [⟨0, 0, "Драма"⟩], 1, 1⟩, .genreAlready "Драма") ∧
    genreUnique (runCallbacks ⟨[⟨0, 5, none⟩], [⟨0, 0, "Драма"⟩], 1, 1⟩
      [⟨5, none, "genre_Комедия"⟩]) :=
  ⟨(genreCallback_uniquePerUserLabel
      ⟨[⟨0, 5, none⟩], [⟨0, 0, "Драма"⟩], 1, 1⟩
      ⟨[⟨0, 5, none⟩], [⟨0, 0, "Драма"⟩], 1, 1⟩
      5 none "Драма" ⟨0, 5, none⟩ [⟨5, none, "genre_Комедия"⟩] rfl).1
      ⟨⟨0, 0, "Драма"⟩, by simp, rfl, rfl⟩,
   (genreCallback_uniquePerUserLabel
      ⟨[⟨0, 5, none⟩], [⟨0, 0, "Драма"⟩], 1, 1⟩
      ⟨[⟨0, 5, none⟩], [⟨0, 0, "Драма"⟩], 1, 1⟩
      5 none "Драма" ⟨0, 5, none⟩ [⟨5, none, "genre_Комедия"⟩] rfl).2.2
      (by simp [genreUnique])⟩

/-- C2: `/setgenres` deletes all of the resolved user's existing `Genre`
rows immediately (the user's stored labels are empty right after the
command), and then selecting labels `L1` and `L2` via the callback
handler leaves exactly the set {L1, L2} stored for that user, whatever
was stored before. -/
theorem setGenres_replaceSemantics (db : DB) (t : ℤ)
    (un un1 un2 : Option String) (L1 L2 : String) (u : UserRow) (db1 : DB)
    (h : get_or_create_user .noFault db t un = (some u, db1)) :
    userLabels (set_genres_command db t un).1 u.id = [] ∧
    ∀ s, s ∈ userLabels
        (genre_callback
          (genre_callback (set_genres_command db t un).1
            ⟨t, un1, "genre_" ++ L1⟩).1
          ⟨t, un2, "genre_" ++ L2⟩).1 u.id ↔ (s = L1 ∨ s = L2) := by
  obtain ⟨hfind, hgen, hnext⟩ := goc_result db t un u db1 h
  rw [set_genres_eq db db1 t un u h]
  have hA : get_or_create_user .noFault
      ({ db1 with
          genres := db1.genres.filter (fun g => !(g.user_id == u.id)) })
      t un1 =
      (some u,
       { db1 with
          genres := db1.genres.filter (fun g => !(g.user_id == u.id)) }) :=
    goc_found _ t un1 u hfind
  have hg1 : ({ db1 with
      genres := db1.genres.filter (fun g => !(g.user_id == u.id)) } :
        DB).genres.find?
      (fun g => g.user_id == u.id && g.genre_name == L1) = none :=
    find?_of_filter_not db1.genres u.id L1
  constructor
  · simp [userLabels, filter_uid_of_filter_not]
  rw [genre_callback_new _ _ t un1 L1 u hA hg1]
  dsimp only
  by_cases hL : L1 = L2
  · subst hL
    have hB : get_or_create_user .noFault
        ({ db1 with
            genres :=
              db1.genres.filter (fun g => !(g.user_id == u.id)) ++
                [⟨db1.nextGenreId, u.id, L1⟩],
            nextGenreId := db1.nextGenreId + 1 }) t un2 =
        (some u,
         { db1 with
            genres :=
              db1.genres.filter (fun g => !(g.user_id == u.id)) ++
                [⟨db1.nextGenreId, u.id, L1⟩],
            nextGenreId := db1.nextGenreId + 1 }) :=
      goc_found _ t un2 u hfind
    have hg2 : ({ db1 with
        genres :=
          db1.genres.filter (fun g => !(g.user_id == u.id)) ++
            [⟨db1.nextGenreId, u.id, L1⟩],
        nextGenreId := db1.nextGenreId + 1 } : DB).genres.find?
        (fun g => g.user_id == u.id && g.genre_name == L1) =
        some ⟨db1.nextGenreId, u.id, L1⟩ := by
      simp [List.find?_append, find?_of_filter_not]
      exact Or.inr fun x _ h1 h2 => absurd h2 h1
    rw [genre_callback_already _ _ t un2 L1 u _ hB hg2]
    intro s
    simp [userLabels, List.filter_append, filter_uid_of_filter_not]
  · have hB : get_or_create_user .noFault
        ({ db1 with
            genres :=
              db1.genres.filter (fun g => !(g.user_id == u.id)) ++
                [⟨db1.nextGenreId, u.id, L1⟩],
            nextGenreId := db1.nextGenreId + 1 }) t un2 =
        (some u,
         { db1 with
            genres :=
              db1.genres.filter (fun g => !(g.user_id == u.id)) ++
                [⟨db1.nextGenreId, u.id, L1⟩],
            nextGenreId := db1.nextGenreId + 1 }) :=
      goc_found _ t un2 u hfind
    have hg2 : ({ db1 with
        genres :=
          db1.genres.filter (fun g => !(g.user_id == u.id)) ++
            [⟨db1.nextGenreId, u.id, L1⟩],
        nextGenreId := db1.nextGenreId + 1 } : DB).genres.find?
        (fun g => g.user_id == u.id && g.genre_name == L2) = none := by
      simp [List.find?_append, find?_of_filter_not, hL]
      exact fun x _ h1 h2 => absurd h2 h1
    rw [genre_callback_new _ _ t un2 L2 u hB hg2]
    intro s
    simp [userLabels, List.filter_append, filter_uid_of_filter_not]

/-- Witness for C2 at a concrete input: user 9 starts with "Ужасы"
stored; after `/setgenres` and selecting "Драма", "Комедия" those are
in and the old label is characterised by the same membership property. -/
theorem setGenres_replaceSemantics_witness :
    userLabels (set_genres_command
      (⟨[⟨0, 9, none⟩], [⟨0, 0, "Ужасы"⟩], 1, 1⟩ : DB) 9 none).1 0 = [] ∧
    ("Драма" ∈ userLabels
        (genre_callback
          (genre_callback (set_genres_command
              (⟨[⟨0, 9, none⟩], [⟨0, 0, "Ужасы"⟩], 1, 1⟩ : DB) 9 none).1
            ⟨9, none, "genre_" ++ "Драма"⟩).1
          ⟨9, none, "genre_" ++ "Комедия"⟩).1 0 ↔
      ("Драма" = "Драма" ∨ "Драма" = "Комедия")) ∧
    ("Ужасы" ∈ userLabels
        (genre_callback
          (genre_callback (set_genres_command
              (⟨[⟨0, 9, none⟩], [⟨0, 0, "Ужасы"⟩], 1, 1⟩ : DB) 9 none).1
            ⟨9, none, "genre_" ++ "Драма"⟩).1
          ⟨9, none, "genre_" ++ "Комедия"⟩).1 0 ↔
      ("Ужасы" = "Драма" ∨ "Ужасы" = "Комедия")) :=
  ⟨(setGenres_replaceSemantics
      ⟨[⟨0, 9, none⟩], [⟨0, 0, "Ужасы"⟩], 1, 1⟩ 9 none none none
      "Драма" "Комедия" ⟨0, 9, none⟩
      ⟨[⟨0, 9, none⟩], [⟨0, 0, "Ужасы"⟩], 1, 1⟩ rfl).1,
   (setGenres_replaceSemantics
      ⟨[⟨0, 9, none⟩], [⟨0, 0, "Ужасы"⟩], 1, 1⟩ 9 none none none
      "Драма" "Комедия" ⟨0, 9, none⟩
      ⟨[⟨0, 9, none⟩], [⟨0, 0, "Ужасы"⟩], 1, 1⟩ rfl).2 "Драма",
   (setGenres_replaceSemantics
      ⟨[⟨0, 9, none⟩], [⟨0, 0, "Ужасы"⟩], 1, 1⟩ 9 none none none
      "Драма" "Комедия" ⟨0, 9, none⟩
      ⟨[⟨0, 9, none⟩], [⟨0, 0, "Ужасы"⟩], 1, 1⟩ rfl).2 "Ужасы"⟩

/-- C9: `/getgenres` replies with the user's stored genre labels as an
ordered sequence in stored (insertion) order — every insert appends at
the end, so list order is insertion order — or with the "none selected"
message when the user has no stored genres. -/
theorem getGenres_listsInInsertionOrder (db db1 : DB) (t : ℤ)
    (un : Option String) (u : UserRow) (db' : DB) (ev : CBEvent)
    (h : get_or_create_user .noFault db t un = (some u, db1)) :
    (userLabels db u.id = [] → get_genres db t un = (db1, .noGenres)) ∧
    (userLabels db u.id ≠ [] →
      get_genres db t un = (db1, .genreList (userLabels db u.id))) ∧
    ((genre_callback db' ev).1.genres = db'.genres ∨
      ∃ r, (genre_callback db' ev).1.genres = db'.genres ++ [r]) := by
  obtain ⟨hfind, hgen, _⟩ := goc_result db t un u db1 h
  refine ⟨?_, ?_, genre_callback_appendOnly db' ev⟩
  · intro he
    have hnil : db1.genres.filter (fun g => g.user_id == u.id) = [] := by
      rw [hgen]
      exact List.map_eq_nil_iff.mp he
    simp [get_genres, h, hnil]
  · intro he
    have hne : ¬ db1.genres.filter (fun g => g.user_id == u.id) = [] := by
      rw [hgen]
      intro hx
      exact he (by simp [userLabels, hx])
    simp [get_genres, h, userLabels, hgen, hne]
    by_contra hcon
    push_neg at hcon
    refine hne ?_
    rw [hgen]
    exact List.filter_eq_nil_iff.mpr fun a ha => by simp [hcon a ha]

/-- Witness for C9 at concrete inputs: user 9 has exactly "Драма", which
`/getgenres` lists; and a concrete callback appends at the end. -/
theorem getGenres_listsInInsertionOrder_witness :
    get_genres ⟨[⟨0, 9, none⟩], [⟨0, 0, "Драма"⟩], 1, 1⟩ 9 none =
      (⟨[⟨0, 9, none⟩], [⟨0, 0, "Драма"⟩], 1, 1⟩,
       .genreList (userLabels
         (⟨[⟨0, 9, none⟩], [⟨0, 0, "Драма"⟩], 1, 1⟩ : DB) 0)) ∧
    ((genre_callback DB.empty ⟨9, none, "genre_Драма"⟩).1.genres =
        DB.empty.genres ∨
      ∃ r, (genre_callback DB.empty ⟨9, none, "genre_Драма"⟩).1.genres =
        DB.empty.genres ++ [r]) :=
  ⟨(getGenres_listsInInsertionOrder
      ⟨[⟨0, 9, none⟩], [⟨0, 0, "Драма"⟩], 1, 1⟩
      ⟨[⟨0, 9, none⟩], [⟨0, 0, "Драма"⟩], 1, 1⟩
      9 none ⟨0, 9, none⟩ DB.empty ⟨9, none, "genre_Драма"⟩ rfl).2.1
      (by decide),
   (getGenres_listsInInsertionOrder
      ⟨[⟨0, 9, none⟩], [⟨0, 0, "Драма"⟩], 1, 1⟩
      ⟨[⟨0, 9, none⟩], [⟨0, 0, "Драма"⟩], 1, 1⟩
      9 none ⟨0, 9, none⟩ DB.empty ⟨9, none, "genre_Драма"⟩ rfl).2.2⟩

/-- C10: the callback handler performs no vocabulary check: for every
string X, a payload `"genre_" ++ X` for a user with no stored (user, X)
row inserts a `Genre` row whose genre_name is X — membership of X in
`AVAILABLE_GENRES` is nowhere required — while the fixed ten-label
vocabulary only determines which buttons `/setgenres` offers. -/
theorem genreCallback_noVocabularyCheck (db db1 : DB) (t : ℤ)
    (un : Option String) (X : String) (u : UserRow)
    (h : get_or_create_user .noFault db t un = (some u, db1))
    (habs : db1.genres.find?
      (fun g => g.user_id == u.id && g.genre_name == X) = none) :
    genre_callback db ⟨t, un, "genre_" ++ X⟩ =
      ({ db1 with genres := db1.genres ++ [⟨db1.nextGenreId, u.id, X⟩],
                  nextGenreId := db1.nextGenreId + 1 }, .genreAdded X) ∧
    (set_genres_command db t un).2 =
      .chooseGenres (AVAILABLE_GENRES.map (fun g => (g, "genre_" ++ g))) := by
  refine ⟨genre_callback_new db db1 t un X u h habs, ?_⟩
  rw [set_genres_eq db db1 t un u h]

/-- Witness for C10 at a concrete input: "Вестерн" is not one of the ten
allowed labels, yet the callback stores it. -/
theorem genreCallback_noVocabularyCheck_witness :
    AVAILABLE_GENRES.contains "Вестерн" = false ∧
    (genre_callback DB.empty ⟨3, none, "genre_" ++ "Вестерн"⟩ =
      ((⟨[⟨0, 3, none⟩], [⟨0, 0, "Вестерн"⟩], 1, 1⟩ : DB),
       .genreAdded "Вестерн") ∧
    (set_genres_command DB.empty 3 none).2 =
      .chooseGenres (AVAILABLE_GENRES.map (fun g => (g, "genre_" ++ g)))) :=
  ⟨by decide,
   genreCallback_noVocabularyCheck DB.empty ⟨[⟨0, 3, none⟩], [], 1, 0⟩
     3 none "Вестерн" ⟨0, 3, none⟩ rfl rfl⟩

/-- C4: `get_access_token` performs a refresh if and only if no (truthy)
token is held or the held token's expiry is at or before the current
instant; consequently, starting without a valid token, two calls of which
the second falls inside the validity window of the freshly obtained
credential trigger exactly one refresh call to the endpoint, and a third
call at or after the expiry instant triggers exactly one more. -/
theorem getAccessToken_caching (now t1 t2 t3 : ℚ) (st st0 : TokenState)
    (out : TokenOutcome) (tok : String) (e : ℚ)
    (h0 : tokenFalsy st0.access_token = true ∨ st0.token_expiry ≤ t1)
    (htok : tok ≠ "") (h2 : t2 < e / 1000) (h3 : e / 1000 ≤ t3)
    (o2 o3 : TokenOutcome) :
    ((get_access_token now st out).2.2.2 = true ↔
      (tokenFalsy st.access_token = true ∨ st.token_expiry ≤ now)) ∧
    (runTokenCalls st0
      [(t1, .response 200 (.json (some tok) (some e))), (t2, o2)]).2 = 1 ∧
    (runTokenCalls st0
      [(t1, .response 200 (.json (some tok) (some e))), (t2, o2),
       (t3, o3)]).2 = 2 := by
  have hiff : ∀ (n : ℚ) (s : TokenState) (o : TokenOutcome),
      (get_access_token n s o).2.2.2 = true ↔
        (tokenFalsy s.access_token = true ∨ s.token_expiry ≤ n) := by
    intro n s o
    rcases hq : request_access_token s o with ⟨s2, err2⟩
    cases hc : (tokenFalsy s.access_token || decide (s.token_expiry ≤ n)) with
    | true =>
      rw [Bool.or_eq_true, decide_eq_true_eq] at hc
      simp [get_access_token, hq, hc]
    | false =>
      rw [Bool.or_eq_false_iff] at hc
      obtain ⟨hf, hd⟩ := hc
      rw [decide_eq_false_iff_not] at hd
      simp [get_access_token, hq, hf, hd]
  have hcond1 : (tokenFalsy st0.access_token ||
      decide (st0.token_expiry ≤ t1)) = true := by
    rcases h0 with h | h <;> simp [h]
  have hfalsy : tokenFalsy (some tok) = false := by
    simpa [tokenFalsy] using htok
  have hc2 : decide ((e / 1000 : ℚ) ≤ t2) = false := by
    simp [not_le.mpr h2]
  have hc3 : decide ((e / 1000 : ℚ) ≤ t3) = true := by simp [h3]
  refine ⟨hiff now st out, ?_, ?_⟩
  · simp [runTokenCalls, get_access_token, request_access_token,
      raiseForStatus, hcond1, hfalsy, hc2]
  · rcases hq3 : request_access_token ⟨some tok, e / 1000⟩ o3 with ⟨s3, err3⟩
    simp [runTokenCalls, get_access_token, request_access_token,
      raiseForStatus, hcond1, hfalsy, hc2, hc3, hq3]

/-- Witness for C4 at concrete instants and outcomes. -/
theorem getAccessToken_caching_witness :
    ((get_access_token 3 ⟨none, 0⟩ .transportError).2.2.2 = true ↔
      (tokenFalsy (none : Option String) = true ∨
        (⟨none, 0⟩ : TokenState).token_expiry ≤ 3)) ∧
    (runTokenCalls ⟨none, 0⟩
      [(0, .response 200 (.json (some "T") (some 5000))),
       (1, .transportError)]).2 = 1 ∧
    (runTokenCalls ⟨none, 0⟩
      [(0, .response 200 (.json (some "T") (some 5000))),
       (1, .transportError), (5, .transportError)]).2 = 2 :=
  getAccessToken_caching 3 0 1 5 ⟨none, 0⟩ ⟨none, 0⟩ .transportError
    "T" 5000 (Or.inl rfl) (by decide) (by norm_num) (by norm_num)
    .transportError .transportError

/-- C8 counterexample: a 2xx JSON token response carrying `access_token`
but missing `expires_at` raises (`KeyError`, propagating to the caller),
yet the held token HAS been replaced by the token of that failed
exchange — the assignment to `self.access_token` precedes the failing
`expires_at` access — while the expiry keeps its old value. -/
theorem requestAccessToken_partialUpdate_counterexample :
    request_access_token ⟨some "old", 7⟩
        (.response 200 (.json (some "new") none)) =
      (⟨some "new", 7⟩, some .keyError) ∧
    (("new" : String) == "old") = false :=
  ⟨rfl, rfl⟩

/-- C8 (amended): transport errors, HTTP 4xx/5xx statuses, malformed JSON
bodies, and JSON bodies missing `access_token` propagate to the caller
(the spec's `TokenAcquisitionError`) with the held token and expiry
unchanged, and the endpoint is contacted exactly once per refresh (no
internal retry, even when the outcome is a failure); however, a
non-error-status JSON body that carries `access_token` but lacks
`expires_at` updates the held token to the failed exchange's value
before the failure propagates (only the expiry is left unchanged). -/
theorem requestAccessToken_failurePropagation (st : TokenState)
    (bad good : ℕ) (tok : String) (now : ℚ) (out : TokenOutcome)
    (hbad : raiseForStatus bad = true)
    (hgood : raiseForStatus good = false)
    (href : tokenFalsy st.access_token = true ∨ st.token_expiry ≤ now) :
    request_access_token st .transportError =
      (st, some .requestException) ∧
    (∀ b, request_access_token st (.response bad b) =
      (st, some .requestException)) ∧
    request_access_token st (.response good .malformedJson) =
      (st, some .requestException) ∧
    (∀ e?, request_access_token st (.response good (.json none e?)) =
      (st, some .keyError)) ∧
    request_access_token st (.response good (.json (some tok) none)) =
      ({ st with access_token := some tok }, some .keyError) ∧
    (get_access_token now st out).2.2.2 = true := by
  have hc : (tokenFalsy st.access_token ||
      decide (st.token_expiry ≤ now)) = true := by
    rcases href with h | h <;> simp [h]
  rcases hq : request_access_token st out with ⟨s2, err2⟩
  refine ⟨rfl, fun b => ?_, ?_, fun e? => ?_, ?_, ?_⟩
  · simp [request_access_token, hbad]
  · simp [request_access_token, hgood]
  · simp [request_access_token, hgood]
  · simp [request_access_token, hgood]
  · simp [get_access_token, hc, hq]

/-- Witness for C8's amended theorem at concrete inputs. -/
theorem requestAccessToken_failurePropagation_witness :
    request_access_token ⟨none, 0⟩ .transportError =
      (⟨none, 0⟩, some .requestException) ∧
    request_access_token ⟨none, 0⟩ (.response 500 .malformedJson) =
      (⟨none, 0⟩, some .requestException) ∧
    request_access_token ⟨none, 0⟩ (.response 200 .malformedJson) =
      (⟨none, 0⟩, some .requestException) ∧
    request_access_token ⟨none, 0⟩ (.response 200 (.json none none)) =
      (⟨none, 0⟩, some .keyError) ∧
    request_access_token ⟨none, 0⟩ (.response 200 (.json (some "T") none)) =
      (⟨some "T", 0⟩, some .keyError) ∧
    (get_access_token 0 ⟨none, 0⟩ .transportError).2.2.2 = true :=
  ⟨(requestAccessToken_failurePropagation ⟨none, 0⟩ 500 200 "T" 0
      .transportError rfl rfl (Or.inl rfl)).1,
   (requestAccessToken_failurePropagation ⟨none, 0⟩ 500 200 "T" 0
      .transportError rfl rfl (Or.inl rfl)).2.1 .malformedJson,
   (requestAccessToken_failurePropagation ⟨none, 0⟩ 500 200 "T" 0
      .transportError rfl rfl (Or.inl rfl)).2.2.1,
   (requestAccessToken_failurePropagation ⟨none, 0⟩ 500 200 "T" 0
      .transportError rfl rfl (Or.inl rfl)).2.2.2.1 none,
   (requestAccessToken_failurePropagation ⟨none, 0⟩ 500 200 "T" 0
      .transportError rfl rfl (Or.inl rfl)).2.2.2.2.1,
   (requestAccessToken_failurePropagation ⟨none, 0⟩ 500 200 "T" 0
      .transportError rfl rfl (Or.inl rfl)).2.2.2.2.2⟩

/-- C5 counterexample: a non-2xx status outside [400, 600) is NOT turned
into the fallback: `raise_for_status` only raises for 4xx/5xx, so a 304
response with a well-formed body returns the body's content instead of
the fixed fallback string. -/
theorem generateRecipe_non2xx_counterexample :
    (generate_recipe 0 ⟨some "tok", 10⟩ .transportError
        (.response 304 (.json (some [⟨some ⟨some "Фильм"⟩⟩])))).1 =
      .ok "Фильм" ∧
    ("Фильм" == fallbackMessage) = false ∧
    raiseForStatus 304 = false ∧
    (304 < 200 ∨ 300 ≤ 304) :=
  ⟨rfl, rfl, rfl, by decide⟩

/-- C5 (amended): if the completion call fails with a transport error or
an HTTP status in [400, 600) — the statuses `raise_for_status` treats as
errors — then, given the token refresh succeeded, `generate_recipe` does
not raise: it returns the fixed, non-empty fallback string; a non-2xx
status outside that range is not treated as a failure. -/
theorem generateRecipe_fallbackOnFailure (now : ℚ) (st : TokenState)
    (tokOut : TokenOutcome) (status : ℕ) (body : CompletionBody)
    (htok : (get_access_token now st tokOut).2.2.1 = none)
    (hbad : raiseForStatus status = true) :
    (generate_recipe now st tokOut .transportError).1 =
      .ok fallbackMessage ∧
    (generate_recipe now st tokOut (.response status body)).1 =
      .ok fallbackMessage ∧
    fallbackMessage ≠ "" := by
  rcases hga : get_access_token now st tokOut with ⟨a, st2, err, cl⟩
  rw [hga] at htok
  have herr : err = none := htok
  subst herr
  refine ⟨?_, ?_, by decide⟩ <;> simp [generate_recipe, hga, hbad]

/-- Witness for C5's amended theorem at concrete inputs. -/
theorem generateRecipe_fallbackOnFailure_witness :
    (generate_recipe 0 ⟨some "tok", 10⟩ .transportError
        .transportError).1 = .ok fallbackMessage ∧
    (generate_recipe 0 ⟨some "tok", 10⟩ .transportError
        (.response 500 (.json (some [⟨some ⟨some "Фильм"⟩⟩])))).1 =
      .ok fallbackMessage :=
  ⟨(generateRecipe_fallbackOnFailure 0 ⟨some "tok", 10⟩ .transportError
      500 (.json (some [⟨some ⟨some "Фильм"⟩⟩])) rfl rfl).1,
   (generateRecipe_fallbackOnFailure 0 ⟨some "tok", 10⟩ .transportError
      500 (.json (some [⟨some ⟨some "Фильм"⟩⟩])) rfl rfl).2.1⟩

/-- C7 counterexample: "for every completion response" is too strong —
for a 500-status response whose JSON body does carry
`choices[0].message.content`, `generate_recipe` returns the fallback
string, not the trimmed first-choice content, and raises nothing. -/
theorem generateRecipe_firstChoice_counterexample :
    (generate_recipe 0 ⟨some "tok", 10⟩ .transportError
        (.response 500 (.json (some [⟨some ⟨some "Фильм"⟩⟩])))).1 =
      .ok fallbackMessage ∧
    (fallbackMessage == "Фильм") = false :=
  ⟨rfl, rfl⟩

/-- C7 (amended): for every completion response whose status is outside
`raise_for_status`'s error range [400, 600), given the token refresh
succeeded: when the body is JSON and `choices[0].message.content` is
present, `generate_recipe` returns the trimmed text of the first
completion choice; when the body is JSON and that field path is absent
(no `choices` key, empty `choices`, missing `message`, or missing
`content`), it fails with `MalformedResponseError`; a body that is not
JSON at all yields the fallback string instead. -/
theorem generateRecipe_firstChoice (now : ℚ) (st : TokenState)
    (tokOut : TokenOutcome) (status : ℕ) (choices? : Option (List Choice))
    (htok : (get_access_token now st tokOut).2.2.1 = none)
    (hok : raiseForStatus status = false) :
    (∀ c rest m content, choices? = some (c :: rest) →
      c.message = some m → m.content = some content →
      (generate_recipe now st tokOut (.response status (.json choices?))).1 =
        .ok (pyStrip content)) ∧
    (choices? = none →
      (generate_recipe now st tokOut (.response status (.json choices?))).1 =
        .error .malformedResponse) ∧
    (choices? = some [] →
      (generate_recipe now st tokOut (.response status (.json choices?))).1 =
        .error .malformedResponse) ∧
    (∀ c rest, choices? = some (c :: rest) → c.message = none →
      (generate_recipe now st tokOut (.response status (.json choices?))).1 =
        .error .malformedResponse) ∧
    (∀ c rest m, choices? = some (c :: rest) → c.message = some m →
      m.content = none →
      (generate_recipe now st tokOut (.response status (.json choices?))).1 =
        .error .malformedResponse) ∧
    (generate_recipe now st tokOut (.response status .malformedJson)).1 =
      .ok fallbackMessage := by
  rcases hga : get_access_token now st tokOut with ⟨a, st2, err, cl⟩
  rw [hga] at htok
  have herr : err = none := htok
  subst herr
  refine ⟨?_, ?_, ?_, ?_, ?_, ?_⟩
  · rintro c rest m content rfl hm hcont
    simp [generate_recipe, hga, hok, hm, hcont]
  · rintro rfl
    simp [generate_recipe, hga, hok]
  · rintro rfl
    simp [generate_recipe, hga, hok]
  · rintro c rest rfl hm
    simp [generate_recipe, hga, hok, hm]
  · rintro c rest m rfl hm hcont
    simp [generate_recipe, hga, hok, hm, hcont]
  · simp [generate_recipe, hga, hok]

/-- Witness for C7's amended theorem at concrete inputs. -/
theorem generateRecipe_firstChoice_witness :
    (generate_recipe 0 ⟨some "tok", 10⟩ .transportError
        (.response 200 (.json (some [⟨some ⟨some " Фильм "⟩⟩])))).1 =
      .ok (pyStrip " Фильм ") ∧
    (generate_recipe 0 ⟨some "tok", 10⟩ .transportError
        (.response 200 (.json (some [])))).1 = .error .malformedResponse ∧
    pyStrip " Фильм " = "Фильм" :=
  ⟨(generateRecipe_firstChoice 0 ⟨some "tok", 10⟩ .transportError 200
      (some [⟨some ⟨some " Фильм "⟩⟩]) rfl rfl).1
      ⟨some ⟨some " Фильм "⟩⟩ [] ⟨some " Фильм "⟩ " Фильм " rfl rfl rfl,
   (generateRecipe_firstChoice 0 ⟨some "tok", 10⟩ .transportError 200
      (some []) rfl rfl).2.2.1 rfl,
   rfl⟩

end GigaMovie
